import Mathlib

/-!
Verification of the page-layout / SEO-metadata contract of the
alnoor-bakery-website repository.

The repository's rendering code consists of:
  * `mockRenderLayoutComponent` in tests/components/layout-dependencies.test.ts,
    a fixed HTML template whose interpolation slots are filled with
    `props.field || default` (JavaScript `||`, so the empty string and an
    absent field both select the default);
  * the `SEO.astro` component given in the Astro best-practices document
    (src/unnamed/part_007), which computes canonical and image URLs with the
    WHATWG `new URL(rel, site)` constructor, builds a JSON-LD object, and
    emits a fixed sequence of head tags;
  * `astro.config.mjs`, which sets `site: 'https://alnoor-bakery.vercel.app'`.

Each of these is embedded below as an executable Lean definition; theorems
about the spec's claims follow the definitions.
-/

/-- A minimal JSON value AST: the JSON-LD payloads built by the SEO component
contain only strings and (for the article case) one nested object, so strings
and objects suffice. -/
inductive JsonVal where
  | str : String → JsonVal
  | obj : List (String × JsonVal) → JsonVal

/-- Look up a top-level key of a JSON object (first match wins, as in the
object-literal semantics of `JSON.parse`/`JSON.stringify` round-trips). -/
def JsonVal.lookup (j : JsonVal) (k : String) : Option JsonVal :=
  match j with
  | .obj fs => (fs.find? (fun kv => kv.1 == k)).map (fun kv => kv.2)
  | .str _ => none

/-- One entry of a document head: meta tags (by `name` or `property`), the
document title, link tags, the charset declaration, or a JSON-LD script. -/
inductive HeadEntry where
  | charset : String → HeadEntry
  | metaName : String → String → HeadEntry
  | metaProp : String → String → HeadEntry
  | titleTag : String → HeadEntry
  | link : String → String → Bool → HeadEntry
  | jsonld : JsonVal → HeadEntry

/-- Short tag describing the kind and name of a head entry, used to compare
emission orders. -/
def headKey : HeadEntry → String
  | .charset _ => "charset"
  | .metaName n _ => "meta:" ++ n
  | .metaProp p _ => "prop:" ++ p
  | .titleTag _ => "title"
  | .link rel _ _ => "link:" ++ rel
  | .jsonld _ => "jsonld"

/-- JavaScript `v || d` for an optional string prop: `undefined` (absent) and
the empty string are falsy, everything else is returned as given. -/
def jsOr (v : Option String) (d : String) : String :=
  match v with
  | none => d
  | some s => if s = "" then d else s

/-- The props object accepted by `mockRenderLayoutComponent` (typed `any` in
the source; the template reads `title`, `description`, `lang`, `dir` and
`content`, and ignores every other key such as `noindex`). -/
structure MockProps where
  title : Option String := none
  description : Option String := none
  lang : Option String := none
  dir : Option String := none
  content : Option String := none
  noindex : Option Bool := none

/-- Head entries of the mock layout template, in the order they appear in the
template string of tests/components/layout-dependencies.test.ts (lines 11-27).
The `noindex` prop is never read by the template. -/
def mockHeadEntries (p : MockProps) : List HeadEntry :=
  [ .charset "UTF-8",
    .metaName "viewport" "width=device-width, initial-scale=1.0",
    .titleTag (jsOr p.title "AL-NOOR BAKERY HALAL"),
    .metaName "description" (jsOr p.description "Authentic halal baked goods and meals"),
    .link "preconnect" "https://fonts.googleapis.com" false,
    .link "preconnect" "https://fonts.gstatic.com" true,
    .link "stylesheet" "https://fonts.googleapis.com/css2?family=Inter:wght@400;500;600;700&display=swap" false,
    .metaProp "og:title" (jsOr p.title "AL-NOOR BAKERY HALAL"),
    .metaProp "og:description" (jsOr p.description "Authentic halal baked goods and meals"),
    .metaProp "og:type" "website",
    .metaName "theme-color" "#f59e0b" ]

/-- The document produced by the mock layout template: the `lang` and `dir`
attributes of the html element, the head entries, and the fixed body
structure. -/
structure MockDocument where
  lang : String
  dir : String
  head : List HeadEntry
  bodyClass : String
  mainId : String
  content : String

/-- Embedding of `mockRenderLayoutComponent` from
tests/components/layout-dependencies.test.ts: every interpolation slot of the
fixed template, filled with JavaScript `||` defaults. The function is total;
the source has no failure path. -/
def mockRenderLayoutComponent (p : MockProps) : MockDocument :=
  { lang := jsOr p.lang "en",
    dir := jsOr p.dir "ltr",
    head := mockHeadEntries p,
    bodyClass := "font-sans antialiased",
    mainId := "main-content",
    content := jsOr p.content "<h1>Welcome to AL-NOOR BAKERY HALAL</h1>" }

/-- The text of the document title, read from the head entries. -/
def MockDocument.docTitle (d : MockDocument) : Option String :=
  d.head.findSome? fun e =>
    match e with
    | .titleTag t => some t
    | _ => none

/-- The content of the description meta tag, read from the head entries. -/
def MockDocument.docDescription (d : MockDocument) : Option String :=
  d.head.findSome? fun e =>
    match e with
    | .metaName n c => if n = "description" then some c else none
    | _ => none

/-- Whether a robots meta entry occurs among head entries. -/
def hasRobotsEntry (es : List HeadEntry) : Bool :=
  es.any fun e =>
    match e with
    | .metaName n _ => n == "robots"
    | _ => false

/-- Characters allowed after the first character of a URI scheme
(RFC 3986: ALPHA / DIGIT / plus / minus / dot). -/
def schemeChar (c : Char) : Bool :=
  c.isAlpha || c.isDigit || c = '+' || c = '-' || c = '.'

/-- After an initial alphabetic character, a URI-scheme prefix continues with
scheme characters and is terminated by a colon. -/
def isSchemeTailL : List Char → Bool
  | [] => false
  | c :: cs => if c = ':' then true else if schemeChar c then isSchemeTailL cs else false

/-- Whether a character list starts with a URI scheme followed by a colon. -/
def hasSchemeL : List Char → Bool
  | [] => false
  | c :: cs => c.isAlpha && isSchemeTailL cs

/-- Whether a string starts with a URI scheme followed by a colon, i.e. is an
absolute URL in the sense the spec uses the term. -/
def hasScheme (s : String) : Bool := hasSchemeL s.data

/-- The spec's notion of an absolute URL (starts with a URI scheme). -/
def isAbsoluteUrl (s : String) : Bool := hasScheme s

/-- The characters of a string up to (excluding) the first colon. -/
def schemeOfL : List Char → List Char
  | [] => []
  | c :: cs => if c = ':' then [] else c :: schemeOfL cs

/-- The URI-scheme prefix of an absolute URL (characters before the first
colon). -/
def schemeOf (s : String) : String := ⟨schemeOfL s.data⟩

/-- Drop one trailing slash from a character list, if present. -/
def stripTrailingSlashL (l : List Char) : List Char :=
  if l.getLast? = some '/' then l.dropLast else l

/-- Drop one trailing slash from a string, if present: the origin of an
origin-only base URL, as the WHATWG URL parser normalizes it. -/
def stripTrailingSlash (s : String) : String := ⟨stripTrailingSlashL s.data⟩

/-- Embedding of the WHATWG constructor call `new URL(rel, base)` used by the
SEO component (part_007 lines 582-583), for the shapes that occur there: the
base is an origin-only URL (the configured site), and the relative input is
resolved as follows.
  * If `rel` has a URI scheme, it is taken as given (the base is ignored).
  * If `rel` is protocol-relative (starts with two slashes), it adopts the
    base's scheme and supplies its own host.
  * If `rel` is root-relative (one leading slash), it is appended to the
    base's origin.
  * Otherwise `rel` is resolved against the base's root path, i.e. appended
    to the origin after a single slash.
The constructor's normalizations (dot segments, percent-encoding, default
ports, case folding, query and fragment splitting) are not modelled; inputs
exercising them are outside this embedding. -/
def urlResolveL (bd rd : List Char) : List Char :=
  if hasSchemeL rd then rd
  else
    match rd with
    | '/' :: '/' :: _ => schemeOfL bd ++ ':' :: rd
    | '/' :: _ => stripTrailingSlashL bd ++ rd
    | _ => stripTrailingSlashL bd ++ '/' :: rd

/-- String wrapper of `urlResolveL`; see that function's documentation. -/
def urlResolve (base rel : String) : String := ⟨urlResolveL base.data rel.data⟩

/-- Whether a character list starts with two slashes. -/
def isProtocolRelativeL (l : List Char) : Bool :=
  match l with
  | '/' :: '/' :: _ => true
  | _ => false

/-- Whether a string is protocol-relative (starts with two slashes). -/
def isProtocolRelative (s : String) : Bool := isProtocolRelativeL s.data

/-- Stated from the spec's words, for comparison with `urlResolveL`:
"concatenate `defaults.siteOrigin` with `canonicalPath`, normalizing exactly
one `/` at the join point" (§4.1 step 3): the origin without its trailing
slash, one slash, then the path without its leading slash. -/
def specJoinL (od pd : List Char) : List Char :=
  stripTrailingSlashL od ++ '/' ::
    (match pd with
     | '/' :: rest => rest
     | _ => pd)

/-- String wrapper of `specJoinL`, the spec's join formula. -/
def specJoin (origin path : String) : String := ⟨specJoinL origin.data path.data⟩

/-- The site URL configured in astro.config.mjs (`site:`), also the value of
`Astro.site` mocked in vitest.setup.ts. -/
def astroSite : String := "https://alnoor-bakery.vercel.app"

/-- The `type` prop of the SEO component: `'website' | 'article'`. -/
inductive SeoType where
  | website
  | article
deriving DecidableEq

/-- The og:type content string for a SEO type. -/
def seoTypeStr : SeoType → String
  | .website => "website"
  | .article => "article"

/-- Props of the SEO component (part_007 lines 554-579), with the
destructuring defaults of the source: `image = '/default-og-image.jpg'`,
`type = 'website'`, `tags = []`. Dates are modelled by their ISO-8601
strings (the only use the source makes of them is `toISOString`). -/
structure SeoProps where
  title : String
  description : String
  image : String := "/default-og-image.jpg"
  canonical : Option String := none
  seotype : SeoType := .website
  publishedAt : Option String := none
  updatedAt : Option String := none
  author : Option String := none
  tags : List String := []

/-- `canonicalURL` of the SEO component (part_007 line 582):
`canonical ? new URL(canonical, site) : new URL(Astro.url.pathname, site)`.
`sitePathname` stands for `Astro.url.pathname`, the current request path. -/
def seoCanonicalURL (p : SeoProps) (site sitePathname : String) : String :=
  match p.canonical with
  | some c => urlResolve site c
  | none => urlResolve site sitePathname

/-- `imageURL` of the SEO component (part_007 line 583):
`new URL(image, site)`. -/
def seoImageURL (p : SeoProps) (site : String) : String :=
  urlResolve site p.image

/-- A JSON object field that is present only when the optional value is:
`JSON.stringify` drops keys whose value is `undefined`. -/
def optField (k : String) : Option String → List (String × JsonVal)
  | none => []
  | some v => [(k, .str v)]

/-- JavaScript `a?.toISOString() || b?.toISOString()` on the modelled ISO
strings (an ISO timestamp is never the empty string, so `||` reduces to
taking the first present value). -/
def firstPresent (a b : Option String) : Option String :=
  match a with
  | some v => some v
  | none => b

/-- The `jsonLd` object of the SEO component (part_007 lines 585-601):
context, a type of `'Article'` or `'WebPage'`, `headline` from the title,
`description`, `image`, `url`, and for articles the spread block with
author, dates and keywords. -/
def seoJsonLd (p : SeoProps) (site sitePathname : String) : JsonVal :=
  .obj
    ([ ("@context", .str "https://schema.org"),
       ("@type", .str (match p.seotype with
                       | .article => "Article"
                       | .website => "WebPage")),
       ("headline", .str p.title),
       ("description", .str p.description),
       ("image", .str (seoImageURL p site)),
       ("url", .str (seoCanonicalURL p site sitePathname)) ]
     ++ (match p.seotype with
         | .website => []
         | .article =>
           [("author", .obj ([("@type", .str "Person")] ++ optField "name" p.author))]
           ++ optField "datePublished" p.publishedAt
           ++ optField "dateModified" (firstPresent p.updatedAt p.publishedAt)
           ++ [("keywords", .str (String.intercalate ", " p.tags))]))

/-- Embedding of the SEO component's emitted head entries (part_007 lines
604-638), in template order: title, meta title, description, canonical link,
the Open Graph block, the Twitter block, the article-only conditionals, and
the JSON-LD script. -/
def seoEmit (p : SeoProps) (site sitePathname : String) : List HeadEntry :=
  [ .titleTag p.title,
    .metaName "title" p.title,
    .metaName "description" p.description,
    .link "canonical" (seoCanonicalURL p site sitePathname) false,
    .metaProp "og:type" (seoTypeStr p.seotype),
    .metaProp "og:url" (seoCanonicalURL p site sitePathname),
    .metaProp "og:title" p.title,
    .metaProp "og:description" p.description,
    .metaProp "og:image" (seoImageURL p site),
    .metaProp "twitter:card" "summary_large_image",
    .metaProp "twitter:url" (seoCanonicalURL p site sitePathname),
    .metaProp "twitter:title" p.title,
    .metaProp "twitter:description" p.description,
    .metaProp "twitter:image" (seoImageURL p site) ]
  ++ (match p.seotype with
      | .website => []
      | .article =>
        (match p.author with
         | some a => [.metaName "author" a]
         | none => [])
        ++ (match p.publishedAt with
            | some d => [.metaProp "article:published_time" d]
            | none => [])
        ++ (match p.updatedAt with
            | some d => [.metaProp "article:modified_time" d]
            | none => [])
        ++ p.tags.map (fun t => .metaProp "article:tag" t))
  ++ [ .jsonld (seoJsonLd p site sitePathname) ]

/-- Stated from the spec's words (§4.2), for comparison with the code's
emission order: the head-entry kind sequence the spec claims, with the
conditional robots entry controlled by `noindex`. -/
def specHeadOrderKeys (noindex : Bool) : List String :=
  [ "charset", "meta:viewport", "title", "meta:description", "link:canonical" ]
  ++ (if noindex then ["meta:robots"] else [])
  ++ [ "prop:og:type", "prop:og:title", "prop:og:description", "prop:og:image", "prop:og:url",
       "meta:twitter:card", "meta:twitter:title", "meta:twitter:description", "meta:twitter:image",
       "meta:theme-color", "jsonld" ]

/-- Direction values of the spec's data model. -/
inductive Direction where
  | ltr
  | rtl
deriving DecidableEq

/-- Structured-data types of the spec's data model. -/
inductive SDType where
  | WebSite
  | LocalBusiness
  | Product
deriving DecidableEq

/-- Modelled from the spec: `PageMetadataInput` (§3). The repository contains
no Metadata Resolver implementation, only its test double
(`mockRenderLayoutComponent`) and the `LayoutProps` declaration in the
technical-specification document, so the resolver's input record is taken
from the spec's data model. Absent optional fields are `none`. -/
structure PageMetadataInput where
  title : Option String := none
  description : Option String := none
  image : Option String := none
  canonicalPath : Option String := none
  language : Option String := none
  direction : Option Direction := none
  noindex : Option Bool := none
  structuredDataType : Option SDType := none

/-- Modelled from the spec: `SiteDefaults` (§3), the process-wide read-only
default table. -/
structure SiteDefaults where
  siteName : String
  siteOrigin : String
  defaultDescription : String
  defaultImage : String
  themeColor : String

/-- Modelled from the spec: `ResolvedMetadata` (§3); every field present, no
optionals. -/
structure ResolvedMetadata where
  title : String
  description : String
  image : String
  canonicalPath : String
  language : String
  direction : Direction
  noindex : Bool
  structuredDataType : SDType
  canonicalUrl : String
  imageUrl : String

/-- Modelled from the spec: the error a call to `resolve` can raise (§7).
`InvalidSiteOrigin` is deliberately not a constructor here: per §7 it is
detected when the defaults are loaded, not per call. -/
inductive ResolveError where
  | InvalidInput
deriving DecidableEq

/-- Modelled from the spec: the startup-time configuration error (§7). -/
inductive LoadError where
  | InvalidSiteOrigin
deriving DecidableEq

/-- The spec's fixed language-to-direction lookup table (§4.1 step 2). -/
def rtlLanguages : List String := ["ar", "he", "fa", "ur"]

/-- Modelled from the spec: derive a direction from a language via the fixed
lookup (§4.1 step 2). -/
def deriveDirection (lang : String) : Direction :=
  if lang ∈ rtlLanguages then .rtl else .ltr

/-- Modelled from the spec: validation of `SiteDefaults` when they are loaded
at process start (§4.1, §7); a non-absolute `siteOrigin` is rejected with
`InvalidSiteOrigin` here, once, rather than per call to `resolve`. -/
def loadSiteDefaults (d : SiteDefaults) : Except LoadError SiteDefaults :=
  if isAbsoluteUrl d.siteOrigin then .ok d else .error .InvalidSiteOrigin

/-- Modelled from the spec: the Metadata Resolver operation
`resolve(input, defaults)` of §4.1, absent from src/. `requestPath` is the
current request path, the fallback for `canonicalPath` (§3). Steps follow
§4.1: an empty or absent title fails with `InvalidInput`; scalar defaults are
substituted; the direction is derived from the language when absent; the two
URLs are computed with the absolute-versus-relative join rule. -/
def resolve (input : PageMetadataInput) (defaults : SiteDefaults)
    (requestPath : String) : Except ResolveError ResolvedMetadata :=
  match input.title with
  | none => .error .InvalidInput
  | some t =>
    if t = "" then .error .InvalidInput
    else
      let language := input.language.getD "en"
      let canonicalPath := input.canonicalPath.getD requestPath
      let image := input.image.getD defaults.defaultImage
      .ok
        { title := t,
          description := input.description.getD defaults.defaultDescription,
          image := image,
          canonicalPath := canonicalPath,
          language := language,
          direction := input.direction.getD (deriveDirection language),
          noindex := input.noindex.getD false,
          structuredDataType := input.structuredDataType.getD .WebSite,
          canonicalUrl := urlResolve defaults.siteOrigin canonicalPath,
          imageUrl := urlResolve defaults.siteOrigin image }

/-! Helper lemmas about URI-scheme prefixes. -/

theorem isSchemeTailL_append {l : List Char} (t : List Char)
    (h : isSchemeTailL l = true) : isSchemeTailL (l ++ t) = true := by
  induction l with
  | nil => simp [isSchemeTailL] at h
  | cons c cs ih =>
    simp only [List.cons_append, isSchemeTailL] at h ⊢
    by_cases hc : c = ':'
    · simp [hc]
    · simp only [hc, if_false] at h ⊢
      by_cases hs : schemeChar c = true
      · simp only [hs, if_true] at h ⊢
        exact ih h
      · simp [hs] at h

theorem schemeChars_then_colon {pre : List Char} (post : List Char)
    (h : ∀ x ∈ pre, schemeChar x = true) :
    isSchemeTailL (pre ++ ':' :: post) = true := by
  induction pre with
  | nil => simp [isSchemeTailL]
  | cons c cs ih =>
    have hc : schemeChar c = true := h c (by simp)
    have hcolon : c ≠ ':' := by
      intro hcc
      subst hcc
      simp [schemeChar, Char.isAlpha, Char.isDigit, Char.isUpper, Char.isLower] at hc
    simp only [List.cons_append, isSchemeTailL, hcolon, if_false, hc, if_true]
    exact ih (fun x hx => h x (by simp [hx]))

theorem isSchemeTailL_decomp {l : List Char} (h : isSchemeTailL l = true) :
    ∃ pre post, l = pre ++ ':' :: post ∧ ∀ x ∈ pre, schemeChar x = true := by
  induction l with
  | nil => simp [isSchemeTailL] at h
  | cons c cs ih =>
    by_cases hc : c = ':'
    · exact ⟨[], cs, by simp [hc], by simp⟩
    · simp only [isSchemeTailL, hc, if_false] at h
      by_cases hs : schemeChar c = true
      · simp only [hs, if_true] at h
        obtain ⟨pre, post, hcat, hall⟩ := ih h
        refine ⟨c :: pre, post, by simp [hcat], ?_⟩
        intro x hx
        rcases List.mem_cons.mp hx with hx | hx
        · subst hx; exact hs
        · exact hall x hx
      · simp [hs] at h

theorem isSchemeTailL_schemeOfL {l : List Char} (h : isSchemeTailL l = true)
    (t : List Char) : isSchemeTailL (schemeOfL l ++ ':' :: t) = true := by
  induction l with
  | nil => simp [isSchemeTailL] at h
  | cons c cs ih =>
    by_cases hc : c = ':'
    · simp [schemeOfL, hc, isSchemeTailL]
    · simp only [isSchemeTailL, hc, if_false] at h
      by_cases hs : schemeChar c = true
      · simp only [hs, if_true] at h
        simp only [schemeOfL, hc, if_false, List.cons_append, isSchemeTailL, hs, if_true]
        exact ih h
      · simp [hs] at h

theorem hasSchemeL_append {l : List Char} (t : List Char)
    (h : hasSchemeL l = true) : hasSchemeL (l ++ t) = true := by
  cases l with
  | nil => simp [hasSchemeL] at h
  | cons c cs =>
    simp only [hasSchemeL, Bool.and_eq_true] at h
    simp only [List.cons_append, hasSchemeL, Bool.and_eq_true]
    exact ⟨h.1, isSchemeTailL_append t h.2⟩

theorem hasSchemeL_stripTrailingSlashL {l : List Char}
    (h : hasSchemeL l = true) : hasSchemeL (stripTrailingSlashL l) = true := by
  unfold stripTrailingSlashL
  by_cases hlast : l.getLast? = some '/'
  · rw [if_pos hlast]
    cases l with
    | nil => simp [hasSchemeL] at h
    | cons c cs =>
      simp only [hasSchemeL, Bool.and_eq_true] at h
      obtain ⟨pre, post, hcat, hall⟩ := isSchemeTailL_decomp h.2
      rcases List.eq_nil_or_concat post with hpost | ⟨q, b, hpost⟩
      · subst hpost
        have hshape : c :: cs = (c :: pre) ++ [':'] := by simp [hcat]
        rw [hshape, List.getLast?_concat] at hlast
        simp at hlast
      · subst hpost
        have hshape : c :: cs = (c :: pre ++ ':' :: q) ++ [b] := by simp [hcat]
        rw [hshape, List.dropLast_concat]
        show (c.isAlpha && isSchemeTailL (pre ++ ':' :: q)) = true
        rw [Bool.and_eq_true]
        exact ⟨h.1, schemeChars_then_colon q hall⟩
  · rw [if_neg hlast]
    exact h

theorem ne_colon_of_isAlpha {c : Char} (h : c.isAlpha = true) : c ≠ ':' := by
  intro hc
  subst hc
  exact absurd h (by decide)

theorem hasSchemeL_schemeJoin {bd : List Char} (hb : hasSchemeL bd = true)
    (t : List Char) : hasSchemeL (schemeOfL bd ++ ':' :: t) = true := by
  cases bd with
  | nil => simp [hasSchemeL] at hb
  | cons c cs =>
    have hb' : c.isAlpha = true ∧ isSchemeTailL cs = true := by
      have : (c.isAlpha && isSchemeTailL cs) = true := hb
      exact Bool.and_eq_true _ _ |>.mp this
    have hc : c ≠ ':' := ne_colon_of_isAlpha hb'.1
    have hsch : schemeOfL (c :: cs) = c :: schemeOfL cs := by
      simp [schemeOfL, hc]
    rw [hsch, List.cons_append]
    show (c.isAlpha && isSchemeTailL (schemeOfL cs ++ ':' :: t)) = true
    rw [Bool.and_eq_true]
    exact ⟨hb'.1, isSchemeTailL_schemeOfL hb'.2 t⟩

theorem urlResolveL_absolute {bd : List Char} (rd : List Char)
    (hb : hasSchemeL bd = true) : hasSchemeL (urlResolveL bd rd) = true := by
  unfold urlResolveL
  by_cases hr : hasSchemeL rd = true
  · rw [if_pos hr]
    exact hr
  · rw [if_neg hr]
    split
    · exact hasSchemeL_schemeJoin hb _
    · exact hasSchemeL_append _ (hasSchemeL_stripTrailingSlashL hb)
    · exact hasSchemeL_append _ (hasSchemeL_stripTrailingSlashL hb)

theorem urlResolveL_eq_specJoinL (bd : List Char) {rd : List Char}
    (hr : hasSchemeL rd = false) (hpr : isProtocolRelativeL rd = false) :
    urlResolveL bd rd = specJoinL bd rd := by
  unfold urlResolveL specJoinL
  rw [if_neg (by simp [hr])]
  split
  · simp [isProtocolRelativeL] at hpr
  · rfl
  · split
    · rename_i h2
      exact (h2 _ rfl).elim
    · rfl

/-! Theorems for the claims. -/

/-- C1 (counterexample): at the concrete input with an explicitly empty
title, the repository's layout renderer does not fail; it produces a
document whose title is the substituted default "AL-NOOR BAKERY HALAL"
(a non-empty default title), contradicting the claim that resolution fails
with InvalidInput and never substitutes a default title. -/
theorem emptyTitle_failure_cex :
    (mockRenderLayoutComponent { title := some "" }).docTitle
      = some "AL-NOOR BAKERY HALAL"
    ∧ ("AL-NOOR BAKERY HALAL" : String) ≠ "" := by
  exact ⟨rfl, by decide⟩

/-- C1 (amended): for every props record whose title is absent or the empty
string, the layout renderer succeeds and substitutes the default title
"AL-NOOR BAKERY HALAL"; there is no failure path. -/
theorem emptyTitle_substitutes_default (p : MockProps)
    (h : p.title = none ∨ p.title = some "") :
    (mockRenderLayoutComponent p).docTitle = some "AL-NOOR BAKERY HALAL" := by
  rcases h with h | h <;>
    simp [mockRenderLayoutComponent, mockHeadEntries, MockDocument.docTitle, jsOr, h]

/-- Witness for C1's amended theorem at the concrete empty-title input. -/
theorem emptyTitle_substitutes_default_witness :
    (mockRenderLayoutComponent { title := some "" }).docTitle
      = some "AL-NOOR BAKERY HALAL" :=
  emptyTitle_substitutes_default { title := some "" } (Or.inr rfl)

/-- C2 (counterexample): at the concrete input with language "ar" and no
explicit direction, the rendered direction is "ltr", not the "rtl" the claim
requires: the renderer never consults the language when defaulting the
direction. -/
theorem arabic_direction_cex :
    (mockRenderLayoutComponent { title := some "Test", lang := some "ar" }).dir = "ltr"
    ∧ ("ltr" : String) ≠ "rtl" := by
  exact ⟨rfl, by decide⟩

/-- C2 (amended): when the direction prop is absent (or empty) the rendered
direction is "ltr" regardless of the language; an explicitly supplied
non-empty direction or language is used as given without cross-validation. -/
theorem direction_defaults_ltr (p : MockProps) :
    ((p.dir = none ∨ p.dir = some "") → (mockRenderLayoutComponent p).dir = "ltr")
    ∧ (∀ d, p.dir = some d → d ≠ "" → (mockRenderLayoutComponent p).dir = d)
    ∧ (∀ l, p.lang = some l → l ≠ "" → (mockRenderLayoutComponent p).lang = l) := by
  refine ⟨?_, ?_, ?_⟩
  · rintro (h | h) <;> simp [mockRenderLayoutComponent, jsOr, h]
  · intro d hd hne
    simp [mockRenderLayoutComponent, jsOr, hd, hne]
  · intro l hl hne
    simp [mockRenderLayoutComponent, jsOr, hl, hne]

/-- Witness for C2's amended theorem: language "ar" with no direction
renders "ltr", and the explicit language is used as given. -/
theorem direction_defaults_ltr_witness :
    (mockRenderLayoutComponent { title := some "Test", lang := some "ar" }).dir = "ltr"
    ∧ (mockRenderLayoutComponent { title := some "Test", lang := some "ar" }).lang = "ar" :=
  ⟨(direction_defaults_ltr _).1 (Or.inl rfl),
   (direction_defaults_ltr _).2.2 "ar" rfl (by decide)⟩

/-- C4 (counterexample): at the concrete input with noindex set to true, the
emitted head entries contain no robots meta entry, contradicting the claimed
"if" direction of the iff. -/
theorem robots_with_noindex_cex :
    ({ title := some "Menu", noindex := some true } : MockProps).noindex = some true
    ∧ hasRobotsEntry (mockHeadEntries { title := some "Menu", noindex := some true })
        = false := by
  exact ⟨rfl, rfl⟩

/-- C4 (amended): the layout renderer never emits a robots meta entry,
whatever the props (the noindex prop is ignored by the template; the
"only if" direction of the claimed iff holds vacuously, the "if" direction
fails). -/
theorem robots_never_emitted (p : MockProps) :
    hasRobotsEntry (mockHeadEntries p) = false := rfl

/-- C8: rendering and resolution are deterministic functions of their
arguments: identical inputs (and, for resolve, identical defaults and
request path) give identical outputs; the embedded code consults no state
besides its arguments. -/
theorem render_and_resolve_deterministic :
    (∀ p q : MockProps, p = q →
      mockRenderLayoutComponent p = mockRenderLayoutComponent q)
    ∧ (∀ (i j : PageMetadataInput) (d e : SiteDefaults) (rp rq : String),
        i = j → d = e → rp = rq →
          resolve i d rp = resolve j e rq) := by
  constructor
  · intro p q h
    rw [h]
  · intro i j d e rp rq h1 h2 h3
    rw [h1, h2, h3]

/-- Witness for C8 at a concrete input. -/
theorem render_deterministic_witness :
    mockRenderLayoutComponent { title := some "Home" }
      = mockRenderLayoutComponent { title := some "Home" } :=
  render_and_resolve_deterministic.1 _ _ rfl

/-- C10: the layout renderer treats an explicitly empty title, description,
lang or dir exactly like an absent one: the rendered documents are equal,
and the defaults "AL-NOOR BAKERY HALAL", "Authentic halal baked goods and
meals", "en" and "ltr" appear; rendering is total, so it never fails. -/
theorem empty_string_props_use_defaults (p : MockProps) :
    mockRenderLayoutComponent { p with title := some "" }
      = mockRenderLayoutComponent { p with title := none }
    ∧ mockRenderLayoutComponent { p with description := some "" }
      = mockRenderLayoutComponent { p with description := none }
    ∧ mockRenderLayoutComponent { p with lang := some "" }
      = mockRenderLayoutComponent { p with lang := none }
    ∧ mockRenderLayoutComponent { p with dir := some "" }
      = mockRenderLayoutComponent { p with dir := none }
    ∧ (mockRenderLayoutComponent { p with title := some "" }).docTitle
        = some "AL-NOOR BAKERY HALAL"
    ∧ (mockRenderLayoutComponent { p with description := some "" }).docDescription
        = some "Authentic halal baked goods and meals"
    ∧ (mockRenderLayoutComponent { p with lang := some "" }).lang = "en"
    ∧ (mockRenderLayoutComponent { p with dir := some "" }).dir = "ltr" := by
  exact ⟨rfl, rfl, rfl, rfl, rfl, rfl, rfl, rfl⟩

/-- C3 (counterexample): at a concrete resolved record, the head-entry kind
sequence the SEO component emits differs from the fixed order of the spec
(both with and without the conditional robots entry): the component's first
entry is the title rather than a charset meta, og:url precedes og:title, and
no charset, viewport, robots or theme-color entry is emitted. -/
theorem emission_order_cex :
    ((seoEmit { title := "Home", description := "Test" } astroSite "/").map headKey
        ≠ specHeadOrderKeys false)
    ∧ ((seoEmit { title := "Home", description := "Test" } astroSite "/").map headKey
        ≠ specHeadOrderKeys true) := by
  exact ⟨by decide, by decide⟩

/-- C3 (amended): for every input of website type, the SEO component emits
head entries in exactly this fixed order, regardless of which optional input
fields were supplied: title, meta title, description meta, canonical link,
og:type, og:url, og:title, og:description, og:image, twitter:card,
twitter:url, twitter:title, twitter:description, twitter:image, then the
JSON-LD script; charset, viewport, robots and theme-color entries are never
emitted by this component. -/
theorem emission_order_fixed (p : SeoProps) (site sitePathname : String)
    (h : p.seotype = SeoType.website) :
    (seoEmit p site sitePathname).map headKey =
      [ "title", "meta:title", "meta:description", "link:canonical",
        "prop:og:type", "prop:og:url", "prop:og:title", "prop:og:description",
        "prop:og:image", "prop:twitter:card", "prop:twitter:url",
        "prop:twitter:title", "prop:twitter:description", "prop:twitter:image",
        "jsonld" ] := by
  obtain ⟨t, d, img, canon, ty, pa, ua, au, tags⟩ := p
  cases ty
  · rfl
  · exact absurd h (by simp)

/-- Witness for C3's amended theorem at a concrete website-type input. -/
theorem emission_order_fixed_witness :
    (seoEmit { title := "Home", description := "Test" } astroSite "/").map headKey =
      [ "title", "meta:title", "meta:description", "link:canonical",
        "prop:og:type", "prop:og:url", "prop:og:title", "prop:og:description",
        "prop:og:image", "prop:twitter:card", "prop:twitter:url",
        "prop:twitter:title", "prop:twitter:description", "prop:twitter:image",
        "jsonld" ] :=
  emission_order_fixed { title := "Home", description := "Test" } astroSite "/" rfl

/-- C5 (counterexample): the protocol-relative input two-slash-cdn.example.com
has no URI scheme, yet the URL resolution of the source does not prefix it
with the site origin as the claim requires: it resolves to an URL on the
cdn.example.com host, differing from the spec's origin-concatenation
formula. -/
theorem protocol_relative_cex :
    hasScheme "//cdn.example.com/pic.jpg" = false
    ∧ urlResolve astroSite "//cdn.example.com/pic.jpg"
        = "https://cdn.example.com/pic.jpg"
    ∧ urlResolve astroSite "//cdn.example.com/pic.jpg"
        ≠ specJoin astroSite "//cdn.example.com/pic.jpg" := by
  exact ⟨by decide, by decide, by decide⟩

/-- C5 (amended): for an absolute base, an input that already starts with a
URI scheme resolves to itself verbatim; an input with no scheme that is not
protocol-relative (does not start with two slashes) resolves to the site
origin concatenated with the path with exactly one slash at the join; and
the resolved URL is always absolute. Protocol-relative inputs are the one
exception to the origin-concatenation rule: they keep only the base's
scheme. -/
theorem url_join_amended (base rel : String)
    (hb : isAbsoluteUrl base = true) :
    (hasScheme rel = true → urlResolve base rel = rel)
    ∧ (hasScheme rel = false → isProtocolRelative rel = false →
        urlResolve base rel = specJoin base rel)
    ∧ isAbsoluteUrl (urlResolve base rel) = true := by
  refine ⟨?_, ?_, ?_⟩
  · intro h
    show (⟨urlResolveL base.data rel.data⟩ : String) = rel
    unfold urlResolveL
    rw [if_pos (show hasSchemeL rel.data = true from h)]
  · intro h hpr
    exact congrArg String.mk (urlResolveL_eq_specJoinL base.data h hpr)
  · exact urlResolveL_absolute rel.data hb

/-- Witness for C5's amended theorem: an already-absolute image URL passes
through verbatim, a root-relative path joins the origin with one slash, and
the results are absolute. -/
theorem url_join_amended_witness :
    urlResolve astroSite "https://cdn.example.com/pic.jpg"
      = "https://cdn.example.com/pic.jpg"
    ∧ urlResolve astroSite "/menu" = specJoin astroSite "/menu"
    ∧ isAbsoluteUrl (urlResolve astroSite "/menu") = true :=
  ⟨(url_join_amended astroSite "https://cdn.example.com/pic.jpg" (by decide)).1 (by decide),
   (url_join_amended astroSite "/menu" (by decide)).2.1 (by decide) (by decide),
   (url_join_amended astroSite "/menu" (by decide)).2.2⟩

/-- C7 (counterexample): at a concrete input, the JSON-LD object the SEO
component embeds has no "name" key at all (its title-bearing key is
"headline"), so the parsed object cannot contain a "name" key matching the
site name as the claim requires. -/
theorem jsonld_name_key_cex :
    (seoJsonLd { title := "Home", description := "Test" } astroSite "/").lookup "name"
      = none
    ∧ (seoJsonLd { title := "Home", description := "Test" } astroSite "/").lookup "headline"
        = some (JsonVal.str "Home") := by
  exact ⟨rfl, rfl⟩

/-- C7 (amended): the JSON-LD object always parses as an object whose
"headline" key carries the page title (not the site name), whose
"description" key carries the resolved description, and whose "url" key
carries the resolved canonical URL; it never contains a top-level "name"
key. -/
theorem jsonld_fields (p : SeoProps) (site sitePathname : String) :
    (seoJsonLd p site sitePathname).lookup "headline" = some (JsonVal.str p.title)
    ∧ (seoJsonLd p site sitePathname).lookup "description"
        = some (JsonVal.str p.description)
    ∧ (seoJsonLd p site sitePathname).lookup "url"
        = some (JsonVal.str (seoCanonicalURL p site sitePathname))
    ∧ (seoJsonLd p site sitePathname).lookup "name" = none := by
  obtain ⟨t, d, img, canon, ty, pa, ua, au, tags⟩ := p
  cases ty
  · exact ⟨rfl, rfl, rfl, rfl⟩
  · refine ⟨rfl, rfl, rfl, ?_⟩
    cases pa <;> cases ua <;> rfl

/-- C6: for every input with a present, non-empty title, and defaults whose
site origin is an absolute URL, the modelled resolver succeeds with a record
in which every field is populated (the record type has no optional fields):
the description falls back to the site default, the language to "en",
noindex to false, the structured-data type to WebSite, and both computed
URLs are absolute. -/
theorem resolve_populates_all_fields (input : PageMetadataInput)
    (defaults : SiteDefaults) (requestPath t : String)
    (ht : input.title = some t) (hne : t ≠ "")
    (hb : isAbsoluteUrl defaults.siteOrigin = true) :
    ∃ r : ResolvedMetadata,
      resolve input defaults requestPath = Except.ok r
      ∧ r.title = t
      ∧ (input.description = none → r.description = defaults.defaultDescription)
      ∧ (input.language = none → r.language = "en")
      ∧ (input.noindex = none → r.noindex = false)
      ∧ (input.structuredDataType = none → r.structuredDataType = SDType.WebSite)
      ∧ isAbsoluteUrl r.canonicalUrl = true
      ∧ isAbsoluteUrl r.imageUrl = true := by
  obtain ⟨ti, de, im, cp, la, di, ni, sd⟩ := input
  simp only at ht
  subst ht
  unfold resolve
  simp only
  rw [if_neg hne]
  refine ⟨_, rfl, rfl, ?_, ?_, ?_, ?_, ?_, ?_⟩
  · intro h
    simp only at h ⊢
    rw [h]
    rfl
  · intro h
    simp only at h ⊢
    rw [h]
    rfl
  · intro h
    simp only at h ⊢
    rw [h]
    rfl
  · intro h
    simp only at h ⊢
    rw [h]
    rfl
  · exact urlResolveL_absolute _ hb
  · exact urlResolveL_absolute _ hb

/-- Witness for C6 at the spec's concrete scenario: title "Home" with the
repository's site defaults. -/
theorem resolve_populates_all_fields_witness :
    ∃ r : ResolvedMetadata,
      resolve { title := some "Home" }
          { siteName := "AL-NOOR BAKERY", siteOrigin := astroSite,
            defaultDescription := "Authentic halal baked goods and meals",
            defaultImage := "/og-default.jpg", themeColor := "#f59e0b" } "/"
        = Except.ok r
      ∧ r.title = "Home"
      ∧ (({ title := some "Home" } : PageMetadataInput).description = none →
          r.description = "Authentic halal baked goods and meals")
      ∧ (({ title := some "Home" } : PageMetadataInput).language = none →
          r.language = "en")
      ∧ (({ title := some "Home" } : PageMetadataInput).noindex = none →
          r.noindex = false)
      ∧ (({ title := some "Home" } : PageMetadataInput).structuredDataType = none →
          r.structuredDataType = SDType.WebSite)
      ∧ isAbsoluteUrl r.canonicalUrl = true
      ∧ isAbsoluteUrl r.imageUrl = true :=
  resolve_populates_all_fields { title := some "Home" }
    { siteName := "AL-NOOR BAKERY", siteOrigin := astroSite,
      defaultDescription := "Authentic halal baked goods and meals",
      defaultImage := "/og-default.jpg", themeColor := "#f59e0b" }
    "/" "Home" rfl (by decide) (by decide)

/-- C9: a defaults record whose site origin is not an absolute URL is
rejected with InvalidSiteOrigin by the startup-time loader, and a call to
the resolver can never fail that way: its only error is InvalidInput (its
error type has no other constructor), so an invalid origin surfaces once at
load time rather than per call. -/
theorem invalid_origin_fails_at_load (d : SiteDefaults)
    (h : isAbsoluteUrl d.siteOrigin = false) :
    loadSiteDefaults d = Except.error LoadError.InvalidSiteOrigin
    ∧ ∀ (input : PageMetadataInput) (requestPath : String),
        resolve input d requestPath = Except.error ResolveError.InvalidInput
        ∨ ∃ r, resolve input d requestPath = Except.ok r := by
  constructor
  · unfold loadSiteDefaults
    rw [if_neg (by simp [h])]
  · intro input requestPath
    unfold resolve
    split
    · exact Or.inl rfl
    · rename_i t heq
      by_cases ht : t = ""
      · rw [if_pos ht]
        exact Or.inl rfl
      · rw [if_neg ht]
        exact Or.inr ⟨_, rfl⟩

/-- Witness for C9 at a concrete non-absolute origin. -/
theorem invalid_origin_fails_at_load_witness :
    loadSiteDefaults
        { siteName := "AL-NOOR BAKERY", siteOrigin := "/not-a-url",
          defaultDescription := "d", defaultImage := "/i.jpg",
          themeColor := "#f59e0b" }
      = Except.error LoadError.InvalidSiteOrigin :=
  (invalid_origin_fails_at_load
    { siteName := "AL-NOOR BAKERY", siteOrigin := "/not-a-url",
      defaultDescription := "d", defaultImage := "/i.jpg",
      themeColor := "#f59e0b" } (by decide)).1
